import Mathlib

/-!
# Verification of snapshot / export-import / restoration / replication control-plane logic

Shallow embedding of the control-plane behaviors exercised by
`src/ent/src/yb/tools/yb-admin-test_ent.cc`.  The client-side helpers
(`WaitForRestoreSnapshot`, `WaitForAllSnapshots`, `GetCompletedSnapshot`,
`WaitForRestoration`) are embedded directly from that source file; the
server-side components (Snapshot Manager, Export/Import Mapper, Restoration
Controller, Replication Controller) are not part of the given sources, so
they are modelled from the specification, as marked on each definition.
-/

set_option maxHeartbeats 1000000

/-- Status/error kinds surfaced by the admin operations (spec section 7). -/
inductive AdminError where
  | notFound (msg : String)
  | invalidArgument (msg : String)
  | corruption (msg : String)
  | illegalState (msg : String)
  | schemaMismatch (msg : String)
  | alreadyExists (msg : String)
  | timedOut (msg : String)
deriving DecidableEq

/-- Snapshot entry states, from `SysSnapshotEntryPB` as used by the source
(`CREATING, COMPLETE, DELETING, DELETED, FAILED`, plus the restoration
states `RESTORING, RESTORED` observed through the same enum). -/
inductive SnapState where
  | creating
  | complete
  | deleting
  | deleted
  | restoring
  | restored
  | failed
deriving DecidableEq

/-- One snapshot entry as returned by `ListSnapshots` (id plus state). -/
structure SnapshotEntryResp where
  id : String
  state : SnapState
deriving DecidableEq

/-- The completeness test applied to one `ListSnapshots` response inside
`AdminCliTest::WaitForAllSnapshots`: every listed snapshot must be in state
`COMPLETE`. -/
def allSnapshotsComplete (resp : List SnapshotEntryResp) : Bool :=
  resp.all (fun s => s.state == SnapState.complete)

/-- Embedding of `AdminCliTest::WaitForAllSnapshots`: the poll loop is given
as the finite trace of successive `ListSnapshots` responses observed before
the 30 s deadline; the first response in which every snapshot is `COMPLETE`
is returned, and exhausting the trace is the deadline timing out. -/
def waitForAllSnapshots : List (List SnapshotEntryResp) → Except AdminError (List SnapshotEntryResp)
  | [] => .error (.timedOut "Waiting for all snapshots to complete")
  | r :: rest => if allSnapshotsComplete r then .ok r else waitForAllSnapshots rest

/-- Embedding of `AdminCliTest::GetCompletedSnapshot`: wait for all snapshots
to complete, then fail with `Corruption` carrying the observed count when the
snapshot count differs from the expected one, else return the id at `idx`. -/
def getCompletedSnapshot (polls : List (List SnapshotEntryResp))
    (num_snapshots : Nat) (idx : Nat) : Except AdminError String :=
  match waitForAllSnapshots polls with
  | .error e => .error e
  | .ok resp =>
    if resp.length ≠ num_snapshots then
      .error (.corruption ("Wrong snapshot count " ++ toString resp.length))
    else
      .ok ((resp.getD idx ⟨"", SnapState.complete⟩).id)

/-- One entry of the JSON array under the "restorations" member of the
`list_snapshot_restorations` output; only its optional "state" member is
inspected by the source. -/
structure RestorationJson where
  state : Option String
deriving DecidableEq

/-- The JSON document returned by `list_snapshot_restorations`: the
"restorations" member may be absent. -/
structure RestoreStatusDoc where
  restorations : Option (List RestorationJson)
deriving DecidableEq

/-- The loop body of `AdminCliTest::WaitForRestoreSnapshot` over the parsed
"restorations" array: an entry without a "state" member is a `NotFound`
error; the first entry whose state differs from "RESTORED" reports
not-yet-done; otherwise done. -/
def checkRestorationsDone : List RestorationJson → Except AdminError Bool
  | [] => .ok true
  | r :: rest =>
    match r.state with
    | none => .error (.notFound "\x27state\x27 not found")
    | some s => if s ≠ "RESTORED" then .ok false else checkRestorationsDone rest

/-- The poll predicate of `AdminCliTest::WaitForRestoreSnapshot` on one
status document: a document without a "restorations" member is not-yet-done. -/
def checkRestoreDone (doc : RestoreStatusDoc) : Except AdminError Bool :=
  match doc.restorations with
  | none => .ok false
  | some rs => checkRestorationsDone rs

/-- Embedding of `AdminCliTest::WaitForRestoreSnapshot`: poll the status
document until the predicate reports done, propagate a predicate error, and
report a timeout when the 30 s deadline (the end of the observed trace) is
reached. -/
def waitForRestoreSnapshot : List RestoreStatusDoc → Except AdminError Unit
  | [] => .error (.timedOut "Waiting for snapshot restore to complete")
  | d :: rest =>
    match checkRestoreDone d with
    | .error e => .error e
    | .ok true => .ok ()
    | .ok false => waitForRestoreSnapshot rest

lemma waitForAllSnapshots_ok_allComplete (polls : List (List SnapshotEntryResp))
    (resp : List SnapshotEntryResp) (h : waitForAllSnapshots polls = .ok resp) :
    allSnapshotsComplete resp = true := by
  induction polls with
  | nil => simp [waitForAllSnapshots] at h
  | cons r rest ih =>
    by_cases hc : allSnapshotsComplete r = true
    · simp [waitForAllSnapshots, hc] at h
      subst h; exact hc
    · simp [waitForAllSnapshots, hc] at h
      exact ih h

/-- C9: when the snapshot count in the completed `ListSnapshots` response
differs from the expected count, `GetCompletedSnapshot` surfaces a
`Corruption` error whose message carries the observed count; a snapshot id is
returned only when the count matches exactly and every snapshot in the
response has reached state `COMPLETE`. -/
theorem c9_snapshot_count_corruption
    (polls : List (List SnapshotEntryResp)) (resp : List SnapshotEntryResp)
    (num idx : Nat) (sid : String)
    (hok : waitForAllSnapshots polls = .ok resp) :
    (resp.length ≠ num →
      getCompletedSnapshot polls num idx =
        .error (.corruption ("Wrong snapshot count " ++ toString resp.length))) ∧
    (getCompletedSnapshot polls num idx = .ok sid →
      resp.length = num ∧ allSnapshotsComplete resp = true) := by
  constructor
  · intro hne
    simp [getCompletedSnapshot, hok, hne]
  · intro hsid
    simp only [getCompletedSnapshot, hok] at hsid
    by_cases hlen : resp.length = num
    · exact ⟨hlen, waitForAllSnapshots_ok_allComplete polls resp hok⟩
    · simp [hlen] at hsid

/-- Witness for C9 at a concrete poll trace: a two-snapshot response against
an expected count of one yields the `Corruption` error carrying the observed
count 2. -/
theorem c9_snapshot_count_corruption_witness :
    getCompletedSnapshot
        [[⟨"snap-a", SnapState.creating⟩],
         [⟨"snap-a", SnapState.complete⟩, ⟨"snap-b", SnapState.complete⟩]] 1 0 =
      .error (.corruption ("Wrong snapshot count " ++ toString 2)) := by
  have h := c9_snapshot_count_corruption
    [[⟨"snap-a", SnapState.creating⟩],
     [⟨"snap-a", SnapState.complete⟩, ⟨"snap-b", SnapState.complete⟩]]
    [⟨"snap-a", SnapState.complete⟩, ⟨"snap-b", SnapState.complete⟩]
    1 0 "" (by rfl)
  exact h.1 (by decide)

lemma checkRestorationsDone_ok_true_iff (rs : List RestorationJson) :
    checkRestorationsDone rs = .ok true ↔ ∀ x ∈ rs, x.state = some "RESTORED" := by
  induction rs with
  | nil => simp [checkRestorationsDone]
  | cons r rest ih =>
    cases hr : r.state with
    | none =>
      simp only [checkRestorationsDone, hr]
      constructor
      · intro h; cases h
      · intro h
        have := h r (by simp)
        rw [hr] at this
        cases this
    | some s =>
      by_cases hs : s = "RESTORED"
      · subst hs
        simp only [checkRestorationsDone, hr, ne_eq, not_true_eq_false, if_false, ih]
        constructor
        · intro h x hx
          rcases List.mem_cons.mp hx with h1 | h2
          · subst h1; exact hr
          · exact h x h2
        · intro h x hx; exact h x (List.mem_cons_of_mem _ hx)
      · simp only [checkRestorationsDone, hr, ne_eq, hs, not_false_eq_true, if_true]
        constructor
        · intro h; cases h
        · intro h
          have := h r (by simp)
          rw [hr] at this
          exact absurd (Option.some.inj this) hs

lemma checkRestorationsDone_append_restored (rs1 l : List RestorationJson)
    (h : ∀ x ∈ rs1, x.state = some "RESTORED") :
    checkRestorationsDone (rs1 ++ l) = checkRestorationsDone l := by
  induction rs1 with
  | nil => simp
  | cons r rest ih =>
    have hr : r.state = some "RESTORED" := h r (by simp)
    simp only [List.cons_append, checkRestorationsDone, hr, ne_eq, not_true_eq_false, if_false]
    exact ih (fun x hx => h x (List.mem_cons_of_mem _ hx))

/-- C10: the restoration poll predicate reports done iff the status document
has a "restorations" member and every listed entry's state is "RESTORED"; a
missing member yields not-yet-done; an entry in another state (reached after
only "RESTORED" entries) yields not-yet-done — in particular a FAILED
restoration makes the poll exhaust its deadline instead of reporting
failure; an entry lacking a "state" member (reached the same way) yields a
`NotFound` error. -/
theorem c10_restore_poll_predicate
    (doc : RestoreStatusDoc) (rs1 rs2 : List RestorationJson)
    (r r' : RestorationJson) (s : String) (polls : List RestoreStatusDoc) :
    (checkRestoreDone doc = .ok true ↔
      ∃ rs, doc.restorations = some rs ∧ ∀ x ∈ rs, x.state = some "RESTORED") ∧
    (doc.restorations = none → checkRestoreDone doc = .ok false) ∧
    ((∀ x ∈ rs1, x.state = some "RESTORED") → r.state = some s → s ≠ "RESTORED" →
      checkRestoreDone ⟨some (rs1 ++ r :: rs2)⟩ = .ok false) ∧
    ((∀ x ∈ rs1, x.state = some "RESTORED") → r'.state = none →
      checkRestoreDone ⟨some (rs1 ++ r' :: rs2)⟩ =
        .error (.notFound "\x27state\x27 not found")) ∧
    ((∀ d ∈ polls, checkRestoreDone d = .ok false) →
      waitForRestoreSnapshot polls =
        .error (.timedOut "Waiting for snapshot restore to complete")) := by
  refine ⟨?_, ?_, ?_, ?_, ?_⟩
  · cases hdoc : doc.restorations with
    | none =>
      simp only [checkRestoreDone, hdoc]
      constructor
      · intro h; cases h
      · rintro ⟨rs, hrs, -⟩; cases hrs
    | some rs =>
      simp only [checkRestoreDone, hdoc]
      rw [checkRestorationsDone_ok_true_iff]
      constructor
      · intro h; exact ⟨rs, rfl, h⟩
      · rintro ⟨rs0, hrs0, hall⟩
        cases hrs0
        exact hall
  · intro h
    simp [checkRestoreDone, h]
  · intro hall hr hs
    simp only [checkRestoreDone]
    rw [checkRestorationsDone_append_restored rs1 (r :: rs2) hall]
    simp [checkRestorationsDone, hr, hs]
  · intro hall hr
    simp only [checkRestoreDone]
    rw [checkRestorationsDone_append_restored rs1 (r' :: rs2) hall]
    simp [checkRestorationsDone, hr]
  · intro hfalse
    induction polls with
    | nil => rfl
    | cons d rest ih =>
      have hd : checkRestoreDone d = .ok false := hfalse d (by simp)
      simp only [waitForRestoreSnapshot, hd]
      exact ih (fun x hx => hfalse x (List.mem_cons_of_mem _ hx))

/-- Witness for C10 at concrete documents: a FAILED entry after a RESTORED
one is not-yet-done, two polls both showing a FAILED entry exhaust the
deadline as a timeout, and an entry lacking a state member is `NotFound`. -/
theorem c10_restore_poll_predicate_witness :
    checkRestoreDone ⟨some [⟨some "RESTORED"⟩, ⟨some "FAILED"⟩]⟩ = .ok false ∧
    waitForRestoreSnapshot [⟨some [⟨some "FAILED"⟩]⟩, ⟨some [⟨some "FAILED"⟩]⟩] =
      .error (.timedOut "Waiting for snapshot restore to complete") ∧
    checkRestoreDone ⟨some [⟨some "RESTORED"⟩, ⟨none⟩]⟩ =
      .error (.notFound "\x27state\x27 not found") := by
  refine ⟨?_, ?_, ?_⟩
  · have h := (c10_restore_poll_predicate ⟨none⟩ [⟨some "RESTORED"⟩] []
      ⟨some "FAILED"⟩ ⟨none⟩ "FAILED" []).2.2.1
    exact h (by intro x hx; simp at hx; rw [hx]) rfl (by decide)
  · have h := (c10_restore_poll_predicate ⟨none⟩ [] [] ⟨none⟩ ⟨none⟩ ""
      [⟨some [⟨some "FAILED"⟩]⟩, ⟨some [⟨some "FAILED"⟩]⟩]).2.2.2.2
    exact h (by intro d hd; simp at hd; subst hd; rfl)
  · have h := (c10_restore_poll_predicate ⟨none⟩ [⟨some "RESTORED"⟩] []
      ⟨none⟩ ⟨none⟩ "" []).2.2.2.1
    exact h (by intro x hx; simp at hx; rw [hx]) rfl

/-- A table schema as compared by `YBSchema::Equals`, including the
transactional table property compared by the source. -/
structure Schema where
  columns : List (String × String)
  is_transactional : Bool
deriving DecidableEq

/-- The table type compared by `CheckImportedTable`. -/
inductive TableType where
  | yqlTable
  | redisTable
  | pgsqlTable
deriving DecidableEq

/-- Modelled from the spec: one entry of the Metadata Catalog — identity
(id, keyspace, name), schema, partitioning, table type, and for an index
table the back-reference to its indexed table. -/
structure TableMeta where
  id : Nat
  keyspace : String
  name : String
  schema : Schema
  partition_schema : Nat
  partitions : List Nat
  table_type : TableType
  indexed_table_id : Option Nat
deriving DecidableEq

/-- Modelled from the spec: the Metadata Catalog, authoritative store of
table identities, with a counter from which fresh identities are allocated. -/
structure Catalog where
  tables : List TableMeta
  nextId : Nat
deriving DecidableEq

/-- Every identity in the catalog was allocated below the counter. -/
def Catalog.WellFormed (c : Catalog) : Prop :=
  ∀ t ∈ c.tables, t.id < c.nextId

/-- Catalog lookup by (keyspace, table name) identity. -/
def Catalog.findByName (c : Catalog) (ks n : String) : Option TableMeta :=
  c.tables.find? (fun t => t.keyspace == ks && t.name == n)

/-- Modelled from the spec: the portable `ExportedMetadata` artifact — a
versioned format tag plus the full captured metadata of the table and its
indexes (self-contained, no access to the originating cluster needed). -/
structure SnapshotArtifact where
  format_version : Nat
  table : TableMeta
  indexes : List TableMeta
deriving DecidableEq

/-- Modelled from the spec: `Export(snapshot)` serializes the captured
table and index metadata into the portable artifact. -/
def exportSnapshot (t : TableMeta) (idxs : List TableMeta) : SnapshotArtifact :=
  ⟨2, t, idxs⟩

/-- The optional renaming arguments of `import_snapshot`
(target keyspace, target table name, target index name). -/
structure ImportRequest where
  keyspace : Option String
  tableName : Option String
  indexName : Option String
deriving DecidableEq

/-- The import request that supplies no renaming at all. -/
def noRename : ImportRequest := ⟨none, none, none⟩

/-- Result of importing one captured table: the resulting catalog entry and
whether the pre-existing identity was reused (`same_ids`). -/
structure ImportedTableEntry where
  meta : TableMeta
  same_ids : Bool
deriving DecidableEq

/-- Modelled from the spec: allocation of a fresh identity during import —
the captured schema, partitioning and table type are recreated faithfully
under the target identity, with the index back-reference rewired. -/
def importFresh (c : Catalog) (src : TableMeta) (ks n : String)
    (indexedId : Option Nat) : Catalog × ImportedTableEntry :=
  let fresh : TableMeta :=
    { src with id := c.nextId, keyspace := ks, name := n, indexed_table_id := indexedId }
  (⟨c.tables ++ [fresh], c.nextId + 1⟩, ⟨fresh, false⟩)

/-- Modelled from the spec: import of one captured table — when a table of
the destination identity already exists and is schema-compatible its
identity is reused (`same_ids = true`), otherwise a fresh identity is
allocated (`same_ids = false`). -/
def importOneTable (c : Catalog) (src : TableMeta) (ks n : String)
    (indexedId : Option Nat) : Catalog × ImportedTableEntry :=
  match c.findByName ks n with
  | some existing =>
    if existing.schema = src.schema then (c, ⟨existing, true⟩)
    else importFresh c src ks n indexedId
  | none => importFresh c src ks n indexedId

/-- Modelled from the spec: import of the captured indexes, each placed in
the target keyspace (under the supplied index name when one is given) with
its back-reference pointing at the imported main table. -/
def importIndexes : Catalog → String → Option String → Nat → List TableMeta →
    Catalog × List ImportedTableEntry
  | c, _, _, _, [] => (c, [])
  | c, ks, idxName, mainId, i :: rest =>
    let m := importOneTable c i ks (idxName.getD i.name) (some mainId)
    let r := importIndexes m.1 ks idxName mainId rest
    (r.1, m.2 :: r.2)

/-- Modelled from the spec: `Import(artifact, target_keyspace?,
target_table_name?, target_index_name?)` — name-precedence rules 1–3 pick
the target identifiers, rule 4 rejects a table rename that leaves an
existing index name ambiguous ("index rename required"), then the main
table and its indexes are imported. -/
def importSnapshot (c : Catalog) (art : SnapshotArtifact) (req : ImportRequest) :
    Except AdminError (Catalog × ImportedTableEntry × List ImportedTableEntry) :=
  let ks := req.keyspace.getD art.table.keyspace
  let tn := req.tableName.getD art.table.name
  if req.tableName.isSome && (tn != art.table.name) &&
      (!art.indexes.isEmpty) && req.indexName.isNone then
    .error (.alreadyExists "index rename required")
  else
    let m := importOneTable c art.table ks tn none
    let r := importIndexes m.1 ks req.indexName m.2.meta.id art.indexes
    .ok (r.1, m.2, r.2)

lemma findByName_some_identity (c : Catalog) (ks n : String) (t : TableMeta)
    (h : c.findByName ks n = some t) : t.keyspace = ks ∧ t.name = n := by
  have hp := List.find?_some h
  simp only [Bool.and_eq_true, beq_iff_eq] at hp
  exact hp

lemma importOneTable_identity (c : Catalog) (src : TableMeta) (ks n : String)
    (iid : Option Nat) :
    (importOneTable c src ks n iid).2.meta.keyspace = ks ∧
    (importOneTable c src ks n iid).2.meta.name = n := by
  unfold importOneTable
  cases hf : c.findByName ks n with
  | none => simp [importFresh]
  | some existing =>
    by_cases hs : existing.schema = src.schema
    · have := findByName_some_identity c ks n existing hf
      simp [hs, this]
    · simp [hs, importFresh]

/-- C1: exporting a COMPLETE snapshot of a table and importing the artifact
with no renaming recreates a table with equal schema, partition schema,
partitions, table type and transactional flag; when the original identity
still exists it is reused (`same_ids = true`), and when it was deleted a
fresh identity is allocated (`same_ids = false`) with the same schema,
partitioning and transactional flag. -/
theorem c1_export_import_round_trip
    (c cDel : Catalog) (t : TableMeta)
    (hfind : c.findByName t.keyspace t.name = some t)
    (hgone : cDel.findByName t.keyspace t.name = none)
    (hid : t.id < cDel.nextId) :
    (importSnapshot c (exportSnapshot t []) noRename = .ok (c, ⟨t, true⟩, [])) ∧
    (∃ r : TableMeta,
      importSnapshot cDel (exportSnapshot t []) noRename =
        .ok (⟨cDel.tables ++ [r], cDel.nextId + 1⟩, ⟨r, false⟩, []) ∧
      r.id ≠ t.id ∧ r.keyspace = t.keyspace ∧ r.name = t.name ∧
      r.schema = t.schema ∧
      r.schema.is_transactional = t.schema.is_transactional ∧
      r.partition_schema = t.partition_schema ∧
      r.partitions = t.partitions ∧ r.table_type = t.table_type) := by
  constructor
  · simp [importSnapshot, exportSnapshot, noRename, importOneTable, hfind, importIndexes]
  · refine ⟨{ t with id := cDel.nextId, indexed_table_id := none }, ?_, ?_, rfl, rfl,
      rfl, rfl, rfl, rfl, rfl⟩
    · simp [importSnapshot, exportSnapshot, noRename, importOneTable, hgone,
        importIndexes, importFresh]
    · simp only []
      omega

/-- C2: for an artifact holding a table with exactly one index, an import
supplying a new table name but no new index name fails — whether or not a
target keyspace is supplied — while additionally supplying a new index name
succeeds and both new names take effect on the imported table and index. -/
theorem c2_import_index_rename
    (c : Catalog) (v : Nat) (t i : TableMeta) (oks : Option String)
    (newT newI : String) (hne : newT ≠ t.name) :
    (importSnapshot c ⟨v, t, [i]⟩ ⟨oks, some newT, none⟩ =
      .error (.alreadyExists "index rename required")) ∧
    (∃ cr mainE ie,
      importSnapshot c ⟨v, t, [i]⟩ ⟨oks, some newT, some newI⟩ =
        .ok (cr, mainE, [ie]) ∧
      mainE.meta.name = newT ∧ mainE.meta.keyspace = oks.getD t.keyspace ∧
      ie.meta.name = newI ∧ ie.meta.keyspace = oks.getD t.keyspace) := by
  constructor
  · simp [importSnapshot, hne]
  · have hmain := importOneTable_identity c t (oks.getD t.keyspace) newT none
    have hidx := importOneTable_identity
      (importOneTable c t (oks.getD t.keyspace) newT none).1 i (oks.getD t.keyspace) newI
      (some (importOneTable c t (oks.getD t.keyspace) newT none).2.meta.id)
    refine ⟨(importOneTable (importOneTable c t (oks.getD t.keyspace) newT none).1 i
        (oks.getD t.keyspace) newI
        (some (importOneTable c t (oks.getD t.keyspace) newT none).2.meta.id)).1,
      (importOneTable c t (oks.getD t.keyspace) newT none).2,
      (importOneTable (importOneTable c t (oks.getD t.keyspace) newT none).1 i
        (oks.getD t.keyspace) newI
        (some (importOneTable c t (oks.getD t.keyspace) newT none).2.meta.id)).2,
      ?_, hmain.2, hmain.1, hidx.2, hidx.1⟩
    simp [importSnapshot, importIndexes]

/-- A committed row mutation: key, value and commit (hybrid) time. -/
structure RowWrite where
  key : Nat
  value : Nat
  commit_time : Nat
deriving DecidableEq

/-- The three accepted forms of `restore_snapshot`'s target time: an
absolute hybrid time, a wall-clock timestamp, or a relative interval
("minus duration"). -/
inductive TargetTime where
  | hybridTime (micros : Nat)
  | timestamp (micros : Nat)
  | interval (micros : Nat)
deriving DecidableEq

/-- Modelled from the spec: resolving the target time of a restore request —
absolute forms stand for themselves, and a relative interval is measured
back from the time the restore request is processed by the leader (not from
the snapshot's creation time). -/
def resolveTargetTime (tt : TargetTime) (requestTime : Nat) : Nat :=
  match tt with
  | .hybridTime m => m
  | .timestamp m => m
  | .interval d => requestTime - d

/-- Modelled from the spec: a snapshot's captured data — its creation time
and the row mutations committed up to that time. -/
structure SnapshotData where
  taken_at : Nat
  writes : List RowWrite
deriving DecidableEq

/-- Modelled from the spec: restoring to a cutoff reverts every row
mutation whose commit time is strictly after the cutoff and preserves the
rows committed at or before it. -/
def restoreToTime (writes : List RowWrite) (cutoff : Nat) : List RowWrite :=
  writes.filter (fun w => w.commit_time ≤ cutoff)

/-- Modelled from the spec: `RestoreSnapshot(snapshot, target_time?)` at a
given request-processing time — an absent target time means the snapshot's
own creation time. -/
def restoreSnapshotAt (snap : SnapshotData) (tt : Option TargetTime)
    (requestTime : Nat) : List RowWrite :=
  restoreToTime snap.writes
    (match tt with
     | none => snap.taken_at
     | some t => resolveTargetTime t requestTime)

/-- A row with the given key is readable in the table state. -/
def rowVisible (writes : List RowWrite) (k : Nat) : Bool :=
  writes.any (fun w => w.key == k)

/-- C3: for writes W1 at t1 and W2 at t2 > t1 and a snapshot taken after
W2, restoring with a target time strictly between t1 and t2 — given as an
absolute hybrid time or as a wall-clock timestamp — yields a state where
W1's row is readable and W2's row is not. -/
theorem c3_restore_time_cutoff
    (w1 w2 : RowWrite) (snap : SnapshotData) (target rt : Nat)
    (hkeys : w1.key ≠ w2.key)
    (hwrites : snap.writes = [w1, w2])
    (h1 : w1.commit_time < target) (h2 : target < w2.commit_time)
    (_hsnap : w2.commit_time ≤ snap.taken_at) :
    (rowVisible (restoreSnapshotAt snap (some (.hybridTime target)) rt) w1.key = true ∧
     rowVisible (restoreSnapshotAt snap (some (.hybridTime target)) rt) w2.key = false) ∧
    (rowVisible (restoreSnapshotAt snap (some (.timestamp target)) rt) w1.key = true ∧
     rowVisible (restoreSnapshotAt snap (some (.timestamp target)) rt) w2.key = false) := by
  have hw1 : w1.commit_time ≤ target := le_of_lt h1
  have hw2 : ¬ (w2.commit_time ≤ target) := by omega
  simp [restoreSnapshotAt, resolveTargetTime, restoreToTime, rowVisible,
    hwrites, hw1, hw2, hkeys]

/-- C4: a relative target time ("minus duration") is resolved against the
restore request's processing time, so an interval reaching back to a point
after W1 but before W2 preserves W1 and reverts W2 even though the snapshot
was created after both writes. -/
theorem c4_restore_interval_from_request_time
    (w1 w2 : RowWrite) (snap : SnapshotData) (d rt : Nat)
    (hkeys : w1.key ≠ w2.key)
    (hwrites : snap.writes = [w1, w2])
    (h1 : w1.commit_time < rt - d) (h2 : rt - d < w2.commit_time)
    (_hsnap : w2.commit_time < snap.taken_at) (_hrt : snap.taken_at ≤ rt) :
    resolveTargetTime (.interval d) rt = rt - d ∧
    rowVisible (restoreSnapshotAt snap (some (.interval d)) rt) w1.key = true ∧
    rowVisible (restoreSnapshotAt snap (some (.interval d)) rt) w2.key = false := by
  have hw1 : w1.commit_time ≤ rt - d := le_of_lt h1
  have hw2 : ¬ (w2.commit_time ≤ rt - d) := by omega
  refine ⟨rfl, ?_, ?_⟩ <;>
    simp [restoreSnapshotAt, resolveTargetTime, restoreToTime, rowVisible,
      hwrites, hw1, hw2, hkeys]

/-- A concrete sample table used by witnesses. -/
def sampleTable : TableMeta :=
  ⟨5, "ks1", "test_table", ⟨[("k", "int"), ("v", "int")], false⟩, 7, [0, 3],
    TableType.yqlTable, none⟩

/-- A concrete sample index on `sampleTable`, used by witnesses. -/
def sampleIndex : TableMeta :=
  ⟨6, "ks1", "test_table_idx", ⟨[("v", "int")], false⟩, 7, [0, 3],
    TableType.yqlTable, some 5⟩

/-- Witness for C1 at a concrete catalog: importing into a catalog still
holding the table reuses its identity, and importing after the table was
deleted allocates a fresh identity with an equal schema. -/
theorem c1_export_import_round_trip_witness :
    (importSnapshot ⟨[sampleTable], 6⟩ (exportSnapshot sampleTable []) noRename =
      .ok (⟨[sampleTable], 6⟩, ⟨sampleTable, true⟩, [])) ∧
    ∃ r : TableMeta,
      importSnapshot ⟨[], 6⟩ (exportSnapshot sampleTable []) noRename =
        .ok (⟨[] ++ [r], 7⟩, ⟨r, false⟩, []) ∧
      r.id ≠ sampleTable.id ∧ r.schema = sampleTable.schema := by
  have h := c1_export_import_round_trip ⟨[sampleTable], 6⟩ ⟨[], 6⟩ sampleTable
    (by decide) (by decide) (by decide)
  refine ⟨h.1, ?_⟩
  obtain ⟨r, hr⟩ := h.2
  exact ⟨r, hr.1, hr.2.1, hr.2.2.2.2.1⟩

/-- Witness for C2 at a concrete artifact: renaming the table without a new
index name fails with and without a target keyspace, and also supplying a
new index name succeeds with both names taking effect. -/
theorem c2_import_index_rename_witness :
    (importSnapshot ⟨[], 0⟩ ⟨2, sampleTable, [sampleIndex]⟩
        ⟨none, some "renamed_table", none⟩ =
      .error (.alreadyExists "index rename required")) ∧
    (importSnapshot ⟨[], 0⟩ ⟨2, sampleTable, [sampleIndex]⟩
        ⟨some "ks2", some "renamed_table", none⟩ =
      .error (.alreadyExists "index rename required")) ∧
    (∃ cr mainE ie,
      importSnapshot ⟨[], 0⟩ ⟨2, sampleTable, [sampleIndex]⟩
          ⟨none, some "renamed_table", some "renamed_idx"⟩ =
        .ok (cr, mainE, [ie]) ∧
      mainE.meta.name = "renamed_table" ∧ ie.meta.name = "renamed_idx") := by
  have h1 := c2_import_index_rename ⟨[], 0⟩ 2 sampleTable sampleIndex none
    "renamed_table" "renamed_idx" (by decide)
  have h2 := c2_import_index_rename ⟨[], 0⟩ 2 sampleTable sampleIndex (some "ks2")
    "renamed_table" "renamed_idx" (by decide)
  refine ⟨h1.1, h2.1, ?_⟩
  obtain ⟨cr, mainE, ie, heq, hn1, _, hn2, _⟩ := h1.2
  exact ⟨cr, mainE, ie, heq, hn1, hn2⟩

/-- Witness for C3 at concrete writes (key 1 at time 10, key 2 at time 20, a
snapshot at time 30) and target time 15: row 1 is readable after the
restore and row 2 is not. -/
theorem c3_restore_time_cutoff_witness :
    rowVisible (restoreSnapshotAt ⟨30, [⟨1, 1, 10⟩, ⟨2, 2, 20⟩]⟩
      (some (TargetTime.hybridTime 15)) 40) 1 = true ∧
    rowVisible (restoreSnapshotAt ⟨30, [⟨1, 1, 10⟩, ⟨2, 2, 20⟩]⟩
      (some (TargetTime.hybridTime 15)) 40) 2 = false := by
  have h := c3_restore_time_cutoff ⟨1, 1, 10⟩ ⟨2, 2, 20⟩ ⟨30, [⟨1, 1, 10⟩, ⟨2, 2, 20⟩]⟩
    15 40 (by decide) rfl (by decide) (by decide) (by decide)
  exact ⟨h.1.1, h.1.2⟩

/-- Witness for C4 at concrete times: writes at 10 and 20, snapshot at 30,
restore request at 40 with interval 25 — the cutoff is 15, so row 1 is
preserved and row 2 reverted. -/
theorem c4_restore_interval_from_request_time_witness :
    resolveTargetTime (TargetTime.interval 25) 40 = 15 ∧
    rowVisible (restoreSnapshotAt ⟨30, [⟨1, 1, 10⟩, ⟨2, 2, 20⟩]⟩
      (some (TargetTime.interval 25)) 40) 1 = true ∧
    rowVisible (restoreSnapshotAt ⟨30, [⟨1, 1, 10⟩, ⟨2, 2, 20⟩]⟩
      (some (TargetTime.interval 25)) 40) 2 = false := by
  have h := c4_restore_interval_from_request_time ⟨1, 1, 10⟩ ⟨2, 2, 20⟩
    ⟨30, [⟨1, 1, 10⟩, ⟨2, 2, 20⟩]⟩ 25 40 (by decide) rfl (by decide) (by decide)
    (by decide) (by decide)
  exact h

/-- A replicated table on either side of an xcluster relationship: id,
name and schema. -/
structure ReplTable where
  id : String
  name : String
  schema : Schema
deriving DecidableEq

/-- Modelled from the spec: producer-cluster state — its tables and its
change (CDC) streams, each stream being a stream id paired with the id of
the table it captures. -/
structure ProducerState where
  tables : List ReplTable
  streams : List (String × String)
deriving DecidableEq

/-- Modelled from the spec: a persisted `ReplicationUniverse` record —
producer cluster id, producer master addresses, and the map from producer
table id to stream (bootstrap) id. -/
structure UniverseRecord where
  universe_id : String
  master_addresses : List String
  table_stream_map : List (String × String)
deriving DecidableEq

/-- Modelled from the spec: consumer-cluster state — its tables and its
replication universe records. -/
structure ConsumerState where
  tables : List ReplTable
  universes : List UniverseRecord
deriving DecidableEq

/-- Table lookup by table id. -/
def findReplTable (ts : List ReplTable) (tid : String) : Option ReplTable :=
  ts.find? (fun t => t.id == tid)

/-- Table lookup by table name (the consumer table of matching identity). -/
def findReplTableByName (ts : List ReplTable) (n : String) : Option ReplTable :=
  ts.find? (fun t => t.name == n)

/-- Whether the producer has a change stream with the given stream id. -/
def hasStream (p : ProducerState) (sid : String) : Bool :=
  p.streams.any (fun s => s.1 == sid)

/-- Whether the consumer holds a universe record under the given id. -/
def hasUniverse (cons : ConsumerState) (uid : String) : Bool :=
  cons.universes.any (fun u => u.universe_id == uid)

/-- The table ids that appear in the producer's stream list, as surfaced by
`list_cdc_streams`. -/
def producerStreamTableIds (p : ProducerState) : List String :=
  p.streams.map (fun s => s.2)

/-- Modelled from the spec: resolving the stream identity for one table —
a supplied bootstrap id must name an existing producer stream
(`NotFound` naming the offending stream id otherwise), and when none is
supplied a fresh stream is created for the table. -/
def resolveStreamId (p : ProducerState) (tid : String) :
    Option String → Except AdminError String
  | some b =>
    if hasStream p b then .ok b
    else .error (.notFound ("Could not find CDC stream: stream_id: \"" ++ b ++ "\""))
  | none => .ok ("stream-" ++ tid)

/-- Modelled from the spec: per-table validation of SetupReplication — the
producer table must exist (`NotFound` naming the id otherwise), the stream
identity must resolve, and the consumer table of matching identity must
have a schema equal to the producer table's. -/
def validateReplTable (p : ProducerState) (cons : ConsumerState)
    (tid : String) (bid : Option String) : Except AdminError String :=
  match findReplTable p.tables tid with
  | none => .error (.notFound (tid ++ " not found"))
  | some pt =>
    match resolveStreamId p tid bid with
    | .error e => .error e
    | .ok sid =>
      match findReplTableByName cons.tables pt.name with
      | none => .error (.notFound ("Consumer table " ++ pt.name ++ " not found"))
      | some ct =>
        if pt.schema = ct.schema then .ok sid
        else .error (.schemaMismatch "Source and target schemas don't match")

/-- Modelled from the spec: validation of the whole table list, aborting at
the first failing table (all-or-nothing). -/
def validateReplTables (p : ProducerState) (cons : ConsumerState) :
    List (String × Option String) → Except AdminError (List (String × String))
  | [] => .ok []
  | (tid, bid) :: rest =>
    match validateReplTable p cons tid bid with
    | .error e => .error e
    | .ok sid =>
      match validateReplTables p cons rest with
      | .error e => .error e
      | .ok m => .ok ((tid, sid) :: m)

deriving instance DecidableEq for Except

/-- The producer and consumer state after a replication operation together
with its reported status. -/
structure SetupOutcome where
  producer : ProducerState
  consumer : ConsumerState
  status : Except AdminError Unit
deriving DecidableEq

/-- Modelled from the spec: `SetupReplication` — rejected when the universe
id already exists; on any validation failure registers no stream and leaves
only a stub universe record (recording the durable intent) behind the
reported error; on success registers every stream on the producer and
persists the full universe record. -/
def setupUniverseReplication (p : ProducerState) (cons : ConsumerState)
    (uid : String) (addrs : List String)
    (reqs : List (String × Option String)) : SetupOutcome :=
  if hasUniverse cons uid then
    ⟨p, cons, .error (.alreadyExists ("Universe " ++ uid ++ " already exists"))⟩
  else
    match validateReplTables p cons reqs with
    | .error e =>
      ⟨p, { cons with universes := cons.universes ++ [⟨uid, addrs, []⟩] }, .error e⟩
    | .ok m =>
      ⟨{ p with streams := p.streams ++ m.map (fun x => (x.2, x.1)) },
       { cons with universes := cons.universes ++ [⟨uid, addrs, m⟩] },
       .ok ()⟩

/-- Modelled from the spec: `DeleteReplication(universe_id)` — tears down
the universe's streams and removes its record; it must succeed also on a
stub record left behind by a setup that failed partway. -/
def deleteUniverseReplication (p : ProducerState) (cons : ConsumerState)
    (uid : String) : SetupOutcome :=
  match cons.universes.find? (fun u => u.universe_id == uid) with
  | none => ⟨p, cons, .error (.notFound ("Universe " ++ uid ++ " not found"))⟩
  | some u =>
    ⟨{ p with streams :=
        p.streams.filter (fun s => !(u.table_stream_map.any (fun x => x.2 == s.1))) },
     { cons with universes := cons.universes.filter (fun x => !(x.universe_id == uid)) },
     .ok ()⟩

/-- C5: SetupReplication against a producer table whose schema differs from
the consumer table of matching identity (a transactional-flag-only
difference included, the flag being part of the schema) fails with the
diagnostic "Source and target schemas don't match" and registers no stream
(only a stub record); with equal schemas it succeeds and the producer's
stream list contains the replicated table's id. -/
theorem c5_setup_replication_schema_check
    (p : ProducerState) (cons : ConsumerState) (uid : String) (addrs : List String)
    (pid : String) (pt ct : ReplTable)
    (hpt : findReplTable p.tables pid = some pt)
    (hct : findReplTableByName cons.tables pt.name = some ct)
    (hnou : hasUniverse cons uid = false) :
    (pt.schema ≠ ct.schema →
      (setupUniverseReplication p cons uid addrs [(pid, none)]).status =
        .error (.schemaMismatch "Source and target schemas don't match") ∧
      (setupUniverseReplication p cons uid addrs [(pid, none)]).producer = p ∧
      (setupUniverseReplication p cons uid addrs [(pid, none)]).consumer.universes =
        cons.universes ++ [⟨uid, addrs, []⟩]) ∧
    (pt.schema = ct.schema →
      (setupUniverseReplication p cons uid addrs [(pid, none)]).status = .ok () ∧
      pid ∈ producerStreamTableIds
        (setupUniverseReplication p cons uid addrs [(pid, none)]).producer) := by
  constructor
  · intro hne
    have hval : validateReplTable p cons pid none =
        .error (.schemaMismatch "Source and target schemas don't match") := by
      simp [validateReplTable, hpt, resolveStreamId, hct, hne]
    refine ⟨?_, ?_, ?_⟩ <;>
      simp [setupUniverseReplication, hnou, validateReplTables, hval]
  · intro heq
    have hval : validateReplTable p cons pid none = .ok ("stream-" ++ pid) := by
      simp [validateReplTable, hpt, resolveStreamId, hct, heq]
    refine ⟨?_, ?_⟩ <;>
      simp [setupUniverseReplication, hnou, validateReplTables, hval,
        producerStreamTableIds]

/-- Witness for C5 at concrete clusters: producer and consumer tables whose
schemas differ only in the transactional flag make setup fail with the
schema-mismatch diagnostic, and equal schemas make it succeed with the
table id appearing in the producer's stream list. -/
theorem c5_setup_replication_schema_check_witness :
    ((setupUniverseReplication
        ⟨[⟨"ptable1", "test_table", ⟨[("k", "int")], false⟩⟩], []⟩
        ⟨[⟨"ctable1", "test_table", ⟨[("k", "int")], true⟩⟩], []⟩
        "producer" ["m1"] [("ptable1", none)]).status =
      .error (.schemaMismatch "Source and target schemas don't match")) ∧
    ((setupUniverseReplication
        ⟨[⟨"ptable2", "test_table", ⟨[("k", "int")], true⟩⟩], []⟩
        ⟨[⟨"ctable1", "test_table", ⟨[("k", "int")], true⟩⟩], []⟩
        "producer" ["m1"] [("ptable2", none)]).status = .ok () ∧
      "ptable2" ∈ producerStreamTableIds
        (setupUniverseReplication
          ⟨[⟨"ptable2", "test_table", ⟨[("k", "int")], true⟩⟩], []⟩
          ⟨[⟨"ctable1", "test_table", ⟨[("k", "int")], true⟩⟩], []⟩
          "producer" ["m1"] [("ptable2", none)]).producer) := by
  have h1 := c5_setup_replication_schema_check
    ⟨[⟨"ptable1", "test_table", ⟨[("k", "int")], false⟩⟩], []⟩
    ⟨[⟨"ctable1", "test_table", ⟨[("k", "int")], true⟩⟩], []⟩
    "producer" ["m1"] "ptable1"
    ⟨"ptable1", "test_table", ⟨[("k", "int")], false⟩⟩
    ⟨"ctable1", "test_table", ⟨[("k", "int")], true⟩⟩
    (by decide) (by decide) (by decide)
  have h2 := c5_setup_replication_schema_check
    ⟨[⟨"ptable2", "test_table", ⟨[("k", "int")], true⟩⟩], []⟩
    ⟨[⟨"ctable1", "test_table", ⟨[("k", "int")], true⟩⟩], []⟩
    "producer" ["m1"] "ptable2"
    ⟨"ptable2", "test_table", ⟨[("k", "int")], true⟩⟩
    ⟨"ctable1", "test_table", ⟨[("k", "int")], true⟩⟩
    (by decide) (by decide) (by decide)
  exact ⟨(h1.1 (by decide)).1, h2.2 rfl⟩

/-- C6: SetupReplication with a supplied bootstrap id that does not exist on
the producer fails with a `NotFound` diagnostic naming the offending stream
id, even when the producer table exists and its schema matches the
consumer's, and no stream is registered. -/
theorem c6_setup_replication_bad_bootstrap
    (p : ProducerState) (cons : ConsumerState) (uid b : String)
    (addrs : List String) (pid : String) (pt ct : ReplTable)
    (hpt : findReplTable p.tables pid = some pt)
    (_hct : findReplTableByName cons.tables pt.name = some ct)
    (_hschema : pt.schema = ct.schema)
    (hnou : hasUniverse cons uid = false)
    (hnos : hasStream p b = false) :
    (setupUniverseReplication p cons uid addrs [(pid, some b)]).status =
      .error (.notFound ("Could not find CDC stream: stream_id: \"" ++ b ++ "\"")) ∧
    (setupUniverseReplication p cons uid addrs [(pid, some b)]).producer = p := by
  have hval : validateReplTable p cons pid (some b) =
      .error (.notFound ("Could not find CDC stream: stream_id: \"" ++ b ++ "\"")) := by
    simp [validateReplTable, hpt, resolveStreamId, hnos]
  constructor <;> simp [setupUniverseReplication, hnou, validateReplTables, hval]

/-- Witness for C6 at concrete clusters: a fake bootstrap id against an
existing schema-compatible producer table yields the `NotFound` error
naming the fake stream id and leaves the producer's streams untouched. -/
theorem c6_setup_replication_bad_bootstrap_witness :
    (setupUniverseReplication
        ⟨[⟨"ptable1", "test_table", ⟨[("k", "int")], true⟩⟩], []⟩
        ⟨[⟨"ctable1", "test_table", ⟨[("k", "int")], true⟩⟩], []⟩
        "producer" ["m1"] [("ptable1", some "fake-bootstrap-id")]).status =
      .error (.notFound
        ("Could not find CDC stream: stream_id: \"" ++ "fake-bootstrap-id" ++ "\"")) ∧
    (setupUniverseReplication
        ⟨[⟨"ptable1", "test_table", ⟨[("k", "int")], true⟩⟩], []⟩
        ⟨[⟨"ctable1", "test_table", ⟨[("k", "int")], true⟩⟩], []⟩
        "producer" ["m1"] [("ptable1", some "fake-bootstrap-id")]).producer =
      ⟨[⟨"ptable1", "test_table", ⟨[("k", "int")], true⟩⟩], []⟩ := by
  exact c6_setup_replication_bad_bootstrap
    ⟨[⟨"ptable1", "test_table", ⟨[("k", "int")], true⟩⟩], []⟩
    ⟨[⟨"ctable1", "test_table", ⟨[("k", "int")], true⟩⟩], []⟩
    "producer" "fake-bootstrap-id" ["m1"] "ptable1"
    ⟨"ptable1", "test_table", ⟨[("k", "int")], true⟩⟩
    ⟨"ctable1", "test_table", ⟨[("k", "int")], true⟩⟩
    (by decide) (by decide) (by decide) (by decide) (by decide)

/-- The C7 scenario: a setup that fails partway, the deletion of the stub
universe record it left behind, and a retried setup under the same
universe id. -/
def setupDeleteRetry (p : ProducerState) (cons : ConsumerState)
    (uid badId pid : String) (addrs : List String) :
    SetupOutcome × SetupOutcome × SetupOutcome :=
  let o1 := setupUniverseReplication p cons uid addrs [(badId, none)]
  let o2 := deleteUniverseReplication o1.producer o1.consumer uid
  let o3 := setupUniverseReplication o2.producer o2.consumer uid addrs [(pid, none)]
  (o1, o2, o3)

lemma setup_single_table_status_ok (p : ProducerState) (cons : ConsumerState)
    (uid : String) (addrs : List String) (pid sid : String)
    (hnou : hasUniverse cons uid = false)
    (hval : validateReplTable p cons pid none = .ok sid) :
    (setupUniverseReplication p cons uid addrs [(pid, none)]).status = .ok () := by
  simp [setupUniverseReplication, hnou, validateReplTables, hval]

lemma hasUniverse_filter_out (us : List UniverseRecord) (uid : String) :
    (us.filter (fun x => !(x.universe_id == uid))).any
      (fun u => u.universe_id == uid) = false := by
  rw [List.any_eq_false]
  intro x hx
  rw [List.mem_filter] at hx
  simpa using hx.2

/-- C7: after a setup that failed partway (nonexistent producer table id)
left a stub universe record, `DeleteReplication(universe_id)` succeeds and
removes the stub, and a subsequent setup under the same universe id with
valid arguments succeeds. -/
theorem c7_delete_replication_after_failed_setup
    (p : ProducerState) (cons : ConsumerState) (uid badId pid : String)
    (addrs : List String) (pt ct : ReplTable)
    (hnou : hasUniverse cons uid = false)
    (hbad : findReplTable p.tables badId = none)
    (hpt : findReplTable p.tables pid = some pt)
    (hct : findReplTableByName cons.tables pt.name = some ct)
    (hschema : pt.schema = ct.schema) :
    ((setupDeleteRetry p cons uid badId pid addrs).1.status =
        .error (.notFound (badId ++ " not found")) ∧
      hasUniverse (setupDeleteRetry p cons uid badId pid addrs).1.consumer uid = true) ∧
    ((setupDeleteRetry p cons uid badId pid addrs).2.1.status = .ok () ∧
      hasUniverse (setupDeleteRetry p cons uid badId pid addrs).2.1.consumer uid = false) ∧
    (setupDeleteRetry p cons uid badId pid addrs).2.2.status = .ok () := by
  have hval1 : validateReplTable p cons badId none =
      .error (.notFound (badId ++ " not found")) := by
    simp [validateReplTable, hbad]
  have ho1 : setupUniverseReplication p cons uid addrs [(badId, none)] =
      ⟨p, { cons with universes := cons.universes ++ [⟨uid, addrs, []⟩] },
       .error (.notFound (badId ++ " not found"))⟩ := by
    simp [setupUniverseReplication, hnou, validateReplTables, hval1]
  have hfindNone : cons.universes.find? (fun u => u.universe_id == uid) = none := by
    rw [List.find?_eq_none]
    exact fun x hx => by simpa using List.any_eq_false.mp hnou x hx
  have hfindStub :
      (cons.universes ++ [(⟨uid, addrs, []⟩ : UniverseRecord)]).find?
        (fun u => u.universe_id == uid) = some ⟨uid, addrs, []⟩ := by
    rw [List.find?_append, hfindNone]
    simp [List.find?]
  have ho2 : deleteUniverseReplication p
      { cons with universes := cons.universes ++ [⟨uid, addrs, []⟩] } uid =
      ⟨p,
       { cons with universes := ((cons.universes ++ [(⟨uid, addrs, []⟩ : UniverseRecord)]).filter (fun x => !(x.universe_id == uid))) },
       .ok ()⟩ := by
    simp [deleteUniverseReplication, hfindStub]
  have hval3 : validateReplTable p
      { cons with universes := ((cons.universes ++ [(⟨uid, addrs, []⟩ : UniverseRecord)]).filter (fun x => !(x.universe_id == uid))) }
      pid none = .ok ("stream-" ++ pid) := by
    simp [validateReplTable, hpt, resolveStreamId, hct, hschema]
  refine ⟨⟨?_, ?_⟩, ⟨?_, ?_⟩, ?_⟩
  · simp [setupDeleteRetry, ho1]
  · simp [setupDeleteRetry, ho1, hasUniverse]
  · simp [setupDeleteRetry, ho1, ho2]
  · simp only [setupDeleteRetry, ho1, ho2]
    exact hasUniverse_filter_out _ uid
  · simp only [setupDeleteRetry, ho1, ho2]
    exact setup_single_table_status_ok p _ uid addrs pid ("stream-" ++ pid)
      (hasUniverse_filter_out _ uid) hval3

/-- Witness for C7 at concrete clusters: setup with a bad producer table id
fails and leaves a stub, deleting the universe succeeds and removes it, and
a retried setup succeeds. -/
theorem c7_delete_replication_after_failed_setup_witness :
    ((setupDeleteRetry
        ⟨[⟨"ptable1", "test_table", ⟨[("k", "int")], true⟩⟩], []⟩
        ⟨[⟨"ctable1", "test_table", ⟨[("k", "int")], true⟩⟩], []⟩
        "producer" "ptable1-BAD" "ptable1" ["m1"]).1.status =
      .error (.notFound ("ptable1-BAD" ++ " not found"))) ∧
    ((setupDeleteRetry
        ⟨[⟨"ptable1", "test_table", ⟨[("k", "int")], true⟩⟩], []⟩
        ⟨[⟨"ctable1", "test_table", ⟨[("k", "int")], true⟩⟩], []⟩
        "producer" "ptable1-BAD" "ptable1" ["m1"]).2.1.status = .ok ()) ∧
    (setupDeleteRetry
        ⟨[⟨"ptable1", "test_table", ⟨[("k", "int")], true⟩⟩], []⟩
        ⟨[⟨"ctable1", "test_table", ⟨[("k", "int")], true⟩⟩], []⟩
        "producer" "ptable1-BAD" "ptable1" ["m1"]).2.2.status = .ok () := by
  have h := c7_delete_replication_after_failed_setup
    ⟨[⟨"ptable1", "test_table", ⟨[("k", "int")], true⟩⟩], []⟩
    ⟨[⟨"ctable1", "test_table", ⟨[("k", "int")], true⟩⟩], []⟩
    "producer" "ptable1-BAD" "ptable1" ["m1"]
    ⟨"ptable1", "test_table", ⟨[("k", "int")], true⟩⟩
    ⟨"ctable1", "test_table", ⟨[("k", "int")], true⟩⟩
    (by decide) (by decide) (by decide) (by decide) (by decide)
  exact ⟨h.1.1, h.2.1.1, h.2.2⟩

/-- Restoration entry states, from the spec's `RestorationEntry` state
machine. -/
inductive RestorationState where
  | created
  | restoring
  | restored
  | failed
deriving DecidableEq

/-- Modelled from the spec: the allowed transitions of a restoration entry —
`CREATED → RESTORING → {RESTORED | FAILED}`; the terminal states have no
outgoing transitions. -/
def restorationStepAllowed : RestorationState → RestorationState → Bool
  | .created, .restoring => true
  | .restoring, .restored => true
  | .restoring, .failed => true
  | _, _ => false

/-- A run of observed states is valid when every consecutive pair is an
allowed transition. -/
def validRun : List RestorationState → Bool
  | [] => true
  | [_] => true
  | a :: b :: rest => restorationStepAllowed a b && validRun (b :: rest)

/-- Modelled from the spec: executing a restoration against the catalog —
when every table captured by the snapshot still exists under its captured
identity the restoration reaches RESTORED; when any captured table id is
gone (e.g. the table was replaced by an import that allocated a fresh
identity) it ends FAILED and applies nothing to the catalog. -/
def executeRestoration (snapTableIds : List Nat) (cat : Catalog) :
    RestorationState × Catalog :=
  if snapTableIds.all (fun i => cat.tables.any (fun t => t.id == i)) then
    (.restored, cat)
  else
    (.failed, cat)

lemma validRun_cons_cons (a b : RestorationState) (rest : List RestorationState) :
    validRun (a :: b :: rest) = true ↔
      restorationStepAllowed a b = true ∧ validRun (b :: rest) = true := by
  simp [validRun, Bool.and_eq_true]

/-- C8: every observed state sequence of a restoration entry starting at
CREATED is a prefix of `CREATED, RESTORING, RESTORED` or of
`CREATED, RESTORING, FAILED`; the terminal states RESTORED and FAILED have
no outgoing transitions (so neither is ever revisited); and a restoration
of a snapshot one of whose captured tables no longer exists under its
captured identity ends FAILED with the catalog unchanged (no partial
application). -/
theorem c8_restoration_monotonic_and_failure
    (tr : List RestorationState) (ids : List Nat) (cat : Catalog) (i : Nat)
    (hhead : tr.head? = some RestorationState.created)
    (hvalid : validRun tr = true)
    (hmiss : i ∈ ids)
    (habs : cat.tables.all (fun t => t.id != i) = true) :
    ((∃ s, tr ++ s = [.created, .restoring, .restored]) ∨
     (∃ s, tr ++ s = [.created, .restoring, .failed])) ∧
    (∀ u, restorationStepAllowed .restored u = false ∧
      restorationStepAllowed .failed u = false) ∧
    executeRestoration ids cat = (.failed, cat) := by
  refine ⟨?_, ?_, ?_⟩
  · cases tr with
    | nil => cases hhead
    | cons a rest =>
      have ha : a = RestorationState.created := by
        simpa using hhead
      subst ha
      cases rest with
      | nil => exact Or.inl ⟨[.restoring, .restored], rfl⟩
      | cons b rest2 =>
        obtain ⟨hb, hv2⟩ := (validRun_cons_cons _ _ _).mp hvalid
        cases b <;> simp [restorationStepAllowed] at hb
        cases rest2 with
        | nil => exact Or.inl ⟨[.restored], rfl⟩
        | cons c rest3 =>
          obtain ⟨hc, hv3⟩ := (validRun_cons_cons _ _ _).mp hv2
          cases c <;> simp [restorationStepAllowed] at hc
          · cases rest3 with
            | nil => exact Or.inl ⟨[], rfl⟩
            | cons d rest4 =>
              obtain ⟨hd, -⟩ := (validRun_cons_cons _ _ _).mp hv3
              cases d <;> simp [restorationStepAllowed] at hd
          · cases rest3 with
            | nil => exact Or.inr ⟨[], rfl⟩
            | cons d rest4 =>
              obtain ⟨hd, -⟩ := (validRun_cons_cons _ _ _).mp hv3
              cases d <;> simp [restorationStepAllowed] at hd
  · intro u
    cases u <;> exact ⟨rfl, rfl⟩
  · have hAnyFalse : cat.tables.any (fun t => t.id == i) = false := by
      rw [List.any_eq_false]
      intro t ht
      have := List.all_eq_true.mp habs t ht
      simpa using this
    have hallFalse : ids.all (fun j => cat.tables.any (fun t => t.id == j)) = false := by
      cases hres : ids.all (fun j => cat.tables.any (fun t => t.id == j)) with
      | false => rfl
      | true =>
        have := List.all_eq_true.mp hres i hmiss
        rw [hAnyFalse] at this
        cases this
    simp [executeRestoration, hallFalse]

/-- Witness for C8: a concrete valid run reaching FAILED is a prefix of the
canonical failed sequence, and restoring a snapshot of the table with id 5
after that table was replaced by an import holding id 6 ends FAILED with
the catalog unchanged. -/
theorem c8_restoration_monotonic_and_failure_witness :
    ((∃ s, ([RestorationState.created, .restoring, .failed] : List RestorationState) ++ s =
        [.created, .restoring, .restored]) ∨
     (∃ s, ([RestorationState.created, .restoring, .failed] : List RestorationState) ++ s =
        [.created, .restoring, .failed])) ∧
    executeRestoration [5] ⟨[{ sampleTable with id := 6 }], 7⟩ =
      (.failed, ⟨[{ sampleTable with id := 6 }], 7⟩) := by
  have h := c8_restoration_monotonic_and_failure
    [RestorationState.created, .restoring, .failed] [5]
    ⟨[{ sampleTable with id := 6 }], 7⟩ 5
    rfl (by decide) (by decide) (by decide)
  exact ⟨h.1, h.2.2⟩
